import Mathlib

/-!
Shallow embedding of the `doorbell_integration` Home Assistant custom
component (files `doorbell_hub.py` and `config_flow.py`), together with
proofs about the configuration resolver (`DoorbellHub._parse_entry`), the
bell-notification fan-out (`DoorbellHub._notify_bell`), the MQTT message
handler, the actuator operations (`async_ring`, the gate operations, and
the lock-for-remote operations) and the lock discovery helper
(`DoorbellOptionsFlowHandler._get_remote_lock_entities`).

Python dynamic values are modelled by the inductive type `PyValue`;
Python truthiness by `PyValue.truthy`; a Python `dict[str, Any]` record
(a config entry's `data` or `options`) by an association list
`Record`.  Fallible Python code (code that can raise) returns `Except`.
-/

namespace Doorbell

/-- A Python runtime value, as far as the component manipulates them:
strings, integers, booleans, `None`, and dictionaries (association lists
of key/value pairs). -/
inductive PyValue where
  | str (s : String)
  | int (n : Int)
  | bool (b : Bool)
  | none
  | dict (items : List (PyValue × PyValue))
deriving Repr, BEq

/-- Python truthiness (`bool(v)`): empty string, zero, `False`, `None`
and the empty dict are falsy; everything else is truthy. -/
def PyValue.truthy : PyValue → Bool
  | .str s => s != ""
  | .int n => n != 0
  | .bool b => b
  | .none => false
  | .dict items => !items.isEmpty

/-- Python `str(v)`, as used by f-string interpolation. Only the string
case is exercised by the theorems; the others follow Python's rendering. -/
def PyValue.pyStr : PyValue → String
  | .str s => s
  | .int n => toString n
  | .bool b => if b then "True" else "False"
  | .none => "None"
  | .dict _ => "{...}"

/-- `isinstance(v, str)`. -/
def PyValue.isStr : PyValue → Bool
  | .str _ => true
  | _ => false

/-- A Python `dict[str, Any]` with string keys (a config entry's `data`
or `options` mapping), as an association list. Real dicts have unique
keys; lookups below take the first match, which agrees with dict lookup
on any list with unique keys. -/
abbrev Record := List (String × PyValue)

/-- `d.get(k)` / `d[k]` lookup on a record. -/
abbrev Record.lookup (r : Record) (k : String) : Option PyValue :=
  List.lookup k r

/-- Python `{**base, **override}`: keys of `base` in order, with values
overridden by `override` where present, followed by the keys of
`override` that are not in `base`. -/
def Record.merge (base override : Record) : Record :=
  base.map (fun kv =>
    (kv.1, match Record.lookup override kv.1 with
           | some w => w
           | Option.none => kv.2))
  ++ List.filter (fun kv => (Record.lookup base kv.1).isNone) override

/-- The dict comprehension in `DoorbellHub._parse_entry`:
`{k: v for k, v in lock_map_raw.items() if isinstance(k, str) and isinstance(v, str)}`.
Keeps exactly the pairs whose key and value are both Python strings
(empty strings included, since `isinstance` does not test emptiness). -/
def pyPairsToLockMap (items : List (PyValue × PyValue)) : List (String × String) :=
  items.filterMap (fun kv =>
    match kv.1, kv.2 with
    | .str k, .str v => some (k, v)
    | _, _ => Option.none)

/-- The `DoorbellHubConfig` dataclass. Scalar fields are kept as
`PyValue` because Python does not enforce the annotations at runtime:
`raw.get(...)` stores whatever the record holds. The lock map is a
genuine string-to-string list because the comprehension filters on
`isinstance(..., str)`. -/
structure DoorbellHubConfig where
  base_topic : PyValue
  client_id : PyValue
  doorbell_device_id : PyValue
  gate_entity : PyValue
  lock_map : List (String × String)
deriving Repr, BEq

/-- The merged raw lock-map value as `_parse_entry` computes it:
`lock_map_raw = raw.get(CONF_LOCK_MAP, {}) or {}` (the `or {}` replaces
any falsy value by the empty dict). -/
def mergedLockMapRaw (base override : Record) : PyValue :=
  let v := (Record.lookup (Record.merge base override) "lock_map").getD (.dict [])
  if v.truthy then v else .dict []

/-- `DoorbellHub._parse_entry`: merge `entry.data` and `entry.options`
(`{**entry.data, **entry.options}`), extract the lock map, and build the
config with `raw.get` defaults. `lock_map_raw.items()` raises
`AttributeError` when the (truthy) lock-map value is not a dict, hence
the `Except`. -/
def parseEntry (base override : Record) : Except String DoorbellHubConfig :=
  let raw := Record.merge base override
  match mergedLockMapRaw base override with
  | .dict items =>
      .ok { base_topic := (Record.lookup raw "base_topic").getD (.str "doorbell")
            client_id := (Record.lookup raw "client_id").getD .none
            doorbell_device_id := (Record.lookup raw "doorbell_device_id").getD .none
            gate_entity := (Record.lookup raw "gate_entity").getD .none
            lock_map := pyPairsToLockMap items }
  | _ => .error "AttributeError: object has no attribute items"

/-! ### Outbound effects: MQTT publishes and Home Assistant service calls -/

/-- One `mqtt.async_publish(hass, topic, payload, qos, retain)` call. -/
structure Publish where
  topic : String
  payload : String
  qos : Nat
  retain : Bool
deriving Repr, DecidableEq

/-- One `hass.services.async_call(domain, service, {"entity_id": entity_id}, blocking)`
call. The entity id stays a `PyValue` because the gate path passes
`self.config.gate_entity` unchanged. -/
structure ServiceCall where
  domain : String
  service : String
  entity_id : PyValue
  blocking : Bool
deriving Repr

/-- `DoorbellHub.async_ring`: one publish of the literal `"ring"` to
`f"{self.config.base_topic}/bell/cmd"` with `qos=1, retain=False`. -/
def asyncRing (config : DoorbellHubConfig) : List Publish :=
  [{ topic := config.base_topic.pyStr ++ "/bell/cmd"
     payload := "ring"
     qos := 1
     retain := false }]

/-- `DoorbellHub.async_open_gate`: `if not self.config.gate_entity: return`,
else one non-blocking `cover.open_cover` call on the gate entity. -/
def asyncOpenGate (config : DoorbellHubConfig) : List ServiceCall :=
  if !config.gate_entity.truthy then []
  else [{ domain := "cover", service := "open_cover"
          entity_id := config.gate_entity, blocking := false }]

/-- `DoorbellHub.async_close_gate`. -/
def asyncCloseGate (config : DoorbellHubConfig) : List ServiceCall :=
  if !config.gate_entity.truthy then []
  else [{ domain := "cover", service := "close_cover"
          entity_id := config.gate_entity, blocking := false }]

/-- `DoorbellHub.async_stop_gate`. -/
def asyncStopGate (config : DoorbellHubConfig) : List ServiceCall :=
  if !config.gate_entity.truthy then []
  else [{ domain := "cover", service := "stop_cover"
          entity_id := config.gate_entity, blocking := false }]

/-- `DoorbellHub.async_lock_for_remote`:
`real = self.config.lock_map.get(remote_entity_id); if not real: return`,
else one non-blocking `lock.lock` call on `real`. `not real` is Python
truthiness: `None` (key absent) and `""` (empty mapped value) both bail
out. -/
def asyncLockForRemote (config : DoorbellHubConfig) (remote_entity_id : String) :
    List ServiceCall :=
  match List.lookup remote_entity_id config.lock_map with
  | Option.none => []
  | some real =>
      if real == "" then []
      else [{ domain := "lock", service := "lock"
              entity_id := .str real, blocking := false }]

/-- `DoorbellHub.async_unlock_for_remote`. -/
def asyncUnlockForRemote (config : DoorbellHubConfig) (remote_entity_id : String) :
    List ServiceCall :=
  match List.lookup remote_entity_id config.lock_map with
  | Option.none => []
  | some real =>
      if real == "" then []
      else [{ domain := "lock", service := "unlock"
              entity_id := .str real, blocking := false }]

/-! ### Bell listeners and notification fan-out -/

/-- What a registered bell callback does when invoked: return normally,
raise an exception, or (for the re-entrancy analysis) call
`hub.register_bell_callback` with a fresh callback carrying `newId`
before returning. -/
inductive ListenerAct where
  | ret
  | raise
  | register (newId : Nat)
deriving Repr, DecidableEq

/-- A registered bell callback, identified by `id` so invocations can be
traced. -/
structure Listener where
  id : Nat
  act : ListenerAct
deriving Repr, DecidableEq

/-- The mutable hub state relevant to bell handling:
`self._bell_callbacks`. -/
structure HubState where
  callbacks : List Listener
deriving Repr, DecidableEq

/-- `DoorbellHub.register_bell_callback`: appends to
`self._bell_callbacks`. -/
def registerBellCallback (st : HubState) (l : Listener) : HubState :=
  { st with callbacks := st.callbacks ++ [l] }

/-- Invoking one callback `cb()`: returns the updated hub state, or an
exception. A registering callback appends a fresh returning callback. -/
def runCb (st : HubState) (l : Listener) : Except String HubState :=
  match l.act with
  | .ret => .ok st
  | .raise => .error "Exception"
  | .register n => .ok (registerBellCallback st ⟨n, .ret⟩)

/-- The loop body of `DoorbellHub._notify_bell` over an already-taken
snapshot: `for cb in snapshot: try: cb() except Exception: continue`.
Returns the final state and the trace of invoked callback ids, in
invocation order. -/
def notifyLoop (st : HubState) : List Listener → HubState × List Nat
  | [] => (st, [])
  | l :: rest =>
      let st1 := match runCb st l with
        | .ok s => s
        | .error _ => st
      let out := notifyLoop st1 rest
      (out.1, l.id :: out.2)

/-- `DoorbellHub._notify_bell`: iterates over `list(self._bell_callbacks)`
(a snapshot taken when the call begins), invoking each callback inside
its own `try/except Exception` boundary. Total: no exception escapes. -/
def notifyBell (st : HubState) : HubState × List Nat :=
  notifyLoop st st.callbacks

/-- The MQTT handler `_message_received` installed by
`DoorbellHub.async_setup`: `if msg.payload == "pressed": self._notify_bell()`.
Returns the new state and the number of `_notify_bell` invocations. -/
def messageReceived (st : HubState) (payload : String) : HubState × Nat :=
  if payload == "pressed" then ((notifyBell st).1, 1) else (st, 0)

/-! ### Lock discovery (`config_flow.py`) -/

/-- An entity registry entry, as far as
`_get_remote_lock_entities` inspects it: `entity_id`, `device_id`
(nullable in Home Assistant) and `domain`. -/
structure RegistryEntry where
  entity_id : String
  device_id : Option String
  domain : String
deriving Repr, DecidableEq

/-- `DoorbellOptionsFlowHandler._get_remote_lock_entities`: loop over
`ent_reg.entities.values()`, skip entries whose `device_id` differs from
the given device or whose domain is not `"lock"`, collect `entity_id`,
and return `sorted(result)`. -/
def getRemoteLockEntities (entities : List RegistryEntry) (device_id : String) :
    List String :=
  ((entities.filter (fun e =>
    e.device_id == some device_id && e.domain == "lock")).map (·.entity_id)).mergeSort

/-! ### Spec-side merge rule and lemmas about `Record.merge` -/

/-- The specification's merge rule, stated in its own words: the value
for a recognized key is "override[key] if override defines it, else
base[key]" (the caller supplies the default for the doubly-absent
case). This is the comparator for the refinement claims about
`parseEntry`; it is intentionally NOT the code's `{**base, **override}`
formulation. -/
def overrideOrBase (base override : Record) (k : String) : Option PyValue :=
  match Record.lookup override k with
  | some v => some v
  | Option.none => Record.lookup base k

theorem lookup_append (l₁ l₂ : Record) (k : String) :
    Record.lookup (l₁ ++ l₂) k =
      match Record.lookup l₁ k with
      | some v => some v
      | Option.none => Record.lookup l₂ k := by
  induction l₁ with
  | nil => simp [Record.lookup]
  | cons kv t ih =>
      obtain ⟨a, v⟩ := kv
      cases h : k == a
      · simp only [List.cons_append, Record.lookup, List.lookup, h] at ih ⊢
        exact ih
      · simp [Record.lookup, List.lookup, h]

theorem lookup_map_override (base override : Record) (k : String) :
    Record.lookup
        (base.map (fun kv =>
          (kv.1, match Record.lookup override kv.1 with
                 | some w => w
                 | Option.none => kv.2))) k =
      (Record.lookup base k).map (fun v =>
        match Record.lookup override k with
        | some w => w
        | Option.none => v) := by
  induction base with
  | nil => simp [Record.lookup]
  | cons kv t ih =>
      obtain ⟨a, v⟩ := kv
      cases h : k == a
      · simpa [Record.lookup, List.lookup, h] using ih
      · have hk : k = a := by simpa using h
        subst hk
        simp [Record.lookup, List.lookup]

theorem lookup_filter_of_not_shadowed (base override : Record) (k : String)
    (hb : Record.lookup base k = Option.none) :
    Record.lookup
        (List.filter (fun kv => (Record.lookup base kv.1).isNone) override) k =
      Record.lookup override k := by
  induction override with
  | nil => simp
  | cons kv t ih =>
      obtain ⟨a, v⟩ := kv
      cases h : k == a
      · cases hp : (Record.lookup base a).isNone <;>
          simp [Record.lookup, List.lookup, List.filter, h, hp, ih]
      · have hk : k = a := by simpa using h
        subst hk
        simp [Record.lookup, List.lookup, List.filter, hb]

/-- The central merge lemma: looking a key up in `{**base, **override}`
follows the spec's rule (override wins, else base). -/
theorem merge_lookup (base override : Record) (k : String) :
    Record.lookup (Record.merge base override) k = overrideOrBase base override k := by
  unfold Record.merge overrideOrBase
  rw [lookup_append, lookup_map_override]
  cases hb : Record.lookup base k
  · simp only [Option.map_none']
    rw [lookup_filter_of_not_shadowed base override k hb]
    cases Record.lookup override k <;> rfl
  · simp only [Option.map_some']
    cases Record.lookup override k <;> rfl

/-- When the merged raw lock-map value is a dict, `_parse_entry` succeeds
and every field follows the spec's merge rule, with the lock map passed
through the `isinstance` filter. -/
theorem parseEntry_ok (base override : Record) (items : List (PyValue × PyValue))
    (h : mergedLockMapRaw base override = .dict items) :
    parseEntry base override =
      .ok { base_topic := (overrideOrBase base override "base_topic").getD (.str "doorbell")
            client_id := (overrideOrBase base override "client_id").getD .none
            doorbell_device_id :=
              (overrideOrBase base override "doorbell_device_id").getD .none
            gate_entity := (overrideOrBase base override "gate_entity").getD .none
            lock_map := pyPairsToLockMap items } := by
  unfold parseEntry
  rw [h]
  simp [merge_lookup]

/-- A string pair is in the filtered lock map exactly when the raw items
contain it as a pair of Python strings. -/
theorem mem_pyPairsToLockMap (items : List (PyValue × PyValue)) (k v : String) :
    (k, v) ∈ pyPairsToLockMap items ↔ (PyValue.str k, PyValue.str v) ∈ items := by
  unfold pyPairsToLockMap
  rw [List.mem_filterMap]
  constructor
  · rintro ⟨⟨a, b⟩, hmem, hf⟩
    cases a <;> cases b <;> simp_all
  · intro h
    exact ⟨(.str k, .str v), h, rfl⟩

/-! ### Claim C1: lock-map filtering during resolution -/

/-- C1 (counterexample): the raw lock-map entry `{"": "x"}` has an empty
key, so the claim says it is silently dropped; `_parse_entry` keeps it,
because the comprehension only tests `isinstance(..., str)` and never
emptiness. -/
theorem claim_C1_counterexample :
    parseEntry [] [("lock_map", PyValue.dict [(PyValue.str "", PyValue.str "x")])] =
      .ok { base_topic := .str "doorbell", client_id := .none,
            doorbell_device_id := .none, gate_entity := .none,
            lock_map := [("", "x")] } := by
  rfl

/-- C1 (amended): for every raw lock-map input that is a mapping, the
resolved `lockMap` contains exactly the pairs whose key and value are
both Python strings (empty strings included); every pair with a
non-string key or value is silently dropped, and resolution never raises
on such input. -/
theorem claim_C1 (base override : Record) (items : List (PyValue × PyValue))
    (h : mergedLockMapRaw base override = .dict items) :
    ∃ c, parseEntry base override = .ok c ∧
      c.lock_map = pyPairsToLockMap items ∧
      ∀ k v, ((k, v) ∈ c.lock_map ↔ (PyValue.str k, PyValue.str v) ∈ items) := by
  refine ⟨_, parseEntry_ok base override items h, rfl, ?_⟩
  intro k v
  exact mem_pyPairsToLockMap items k v

/-- C1 witness: a mapping with one valid pair, one non-string key and one
non-string value. -/
theorem claim_C1_witness :
    mergedLockMapRaw []
        [("lock_map", PyValue.dict
          [(PyValue.str "a", PyValue.str "b"),
           (PyValue.int 1, PyValue.str "c"),
           (PyValue.str "d", PyValue.none)])] =
      .dict [(PyValue.str "a", PyValue.str "b"),
             (PyValue.int 1, PyValue.str "c"),
             (PyValue.str "d", PyValue.none)] ∧
    ∃ c, parseEntry []
        [("lock_map", PyValue.dict
          [(PyValue.str "a", PyValue.str "b"),
           (PyValue.int 1, PyValue.str "c"),
           (PyValue.str "d", PyValue.none)])] = .ok c ∧
      c.lock_map = pyPairsToLockMap
        [(PyValue.str "a", PyValue.str "b"),
         (PyValue.int 1, PyValue.str "c"),
         (PyValue.str "d", PyValue.none)] ∧
      ∀ k v, ((k, v) ∈ c.lock_map ↔
        (PyValue.str k, PyValue.str v) ∈
          [(PyValue.str "a", PyValue.str "b"),
           (PyValue.int 1, PyValue.str "c"),
           (PyValue.str "d", PyValue.none)]) :=
  ⟨rfl, claim_C1 _ _ _ rfl⟩

/-! ### Claim C3: merge semantics of the config resolver -/

/-- C3 (counterexample): with `override = {"lock_map": "x"}` (a truthy
non-mapping lock-map value), `_parse_entry` evaluates
`lock_map_raw.items()` on a string and raises `AttributeError` — so
"resolve never raises" is false as stated. -/
theorem claim_C3_counterexample :
    parseEntry [] [("lock_map", PyValue.str "x")] =
      .error "AttributeError: object has no attribute items" := by
  rfl

/-- C3 (amended): for every pair of configuration records whose merged
lock-map value (after the `or {}` normalization) is a mapping, resolve
does not raise, and every recognized key resolves to override's value if
override defines it, else base's value if base defines it, else the
built-in default (`base_topic` → `"doorbell"`, scalar keys → `None`),
with the lock-map value additionally filtered to its string-to-string
pairs. -/
theorem claim_C3 (base override : Record) (items : List (PyValue × PyValue))
    (h : mergedLockMapRaw base override = .dict items) :
    ∃ c, parseEntry base override = .ok c ∧
      c.base_topic = (overrideOrBase base override "base_topic").getD (.str "doorbell") ∧
      c.client_id = (overrideOrBase base override "client_id").getD .none ∧
      c.doorbell_device_id =
        (overrideOrBase base override "doorbell_device_id").getD .none ∧
      c.gate_entity = (overrideOrBase base override "gate_entity").getD .none ∧
      c.lock_map = pyPairsToLockMap items :=
  ⟨_, parseEntry_ok base override items h, rfl, rfl, rfl, rfl, rfl⟩

/-- C3 witness: base defines `base_topic` and `gate_entity`, override
defines `client_id` and overrides `gate_entity`; no lock map. -/
theorem claim_C3_witness :
    mergedLockMapRaw
        [("base_topic", PyValue.str "home"), ("gate_entity", PyValue.str "cover.a")]
        [("client_id", PyValue.str "c1"), ("gate_entity", PyValue.str "cover.b")] =
      .dict [] ∧
    ∃ c, parseEntry
        [("base_topic", PyValue.str "home"), ("gate_entity", PyValue.str "cover.a")]
        [("client_id", PyValue.str "c1"), ("gate_entity", PyValue.str "cover.b")] = .ok c ∧
      c.base_topic = (overrideOrBase
        [("base_topic", PyValue.str "home"), ("gate_entity", PyValue.str "cover.a")]
        [("client_id", PyValue.str "c1"), ("gate_entity", PyValue.str "cover.b")]
        "base_topic").getD (.str "doorbell") ∧
      c.client_id = (overrideOrBase
        [("base_topic", PyValue.str "home"), ("gate_entity", PyValue.str "cover.a")]
        [("client_id", PyValue.str "c1"), ("gate_entity", PyValue.str "cover.b")]
        "client_id").getD .none ∧
      c.doorbell_device_id = (overrideOrBase
        [("base_topic", PyValue.str "home"), ("gate_entity", PyValue.str "cover.a")]
        [("client_id", PyValue.str "c1"), ("gate_entity", PyValue.str "cover.b")]
        "doorbell_device_id").getD .none ∧
      c.gate_entity = (overrideOrBase
        [("base_topic", PyValue.str "home"), ("gate_entity", PyValue.str "cover.a")]
        [("client_id", PyValue.str "c1"), ("gate_entity", PyValue.str "cover.b")]
        "gate_entity").getD .none ∧
      c.lock_map = pyPairsToLockMap [] :=
  ⟨rfl, claim_C3 _ _ _ rfl⟩

/-! ### Claim C4: default for a `client_id` absent from both records -/

/-- C4 (counterexample): with `client_id` absent from both records,
`_parse_entry` yields `client_id = None` (from `raw.get(CONF_CLIENT_ID)`),
not the string `"doorbell"` the claim asserts. -/
theorem claim_C4_counterexample :
    parseEntry [] [] =
      .ok { base_topic := .str "doorbell", client_id := .none,
            doorbell_device_id := .none, gate_entity := .none, lock_map := [] } ∧
    PyValue.none ≠ PyValue.str "doorbell" :=
  ⟨rfl, fun h => PyValue.noConfusion h⟩

/-- C4 (amended): when `client_id` is absent from both the base record
and the override record, the resolved `client_id` is `None` (absent) —
unlike `base_topic`, it has no `"doorbell"` default in the resolver. -/
theorem claim_C4 (base override : Record) (c : DoorbellHubConfig)
    (hb : Record.lookup base "client_id" = Option.none)
    (ho : Record.lookup override "client_id" = Option.none)
    (hok : parseEntry base override = .ok c) :
    c.client_id = PyValue.none := by
  unfold parseEntry at hok
  cases hm : mergedLockMapRaw base override <;> rw [hm] at hok <;>
    first
    | exact Except.noConfusion hok
    | (simp only [Except.ok.injEq] at hok
       subst hok
       simp [merge_lookup, overrideOrBase, hb, ho])

/-- C4 witness: both records empty. -/
theorem claim_C4_witness :
    Record.lookup [] "client_id" = Option.none ∧
    ({ base_topic := .str "doorbell", client_id := .none,
       doorbell_device_id := .none, gate_entity := .none,
       lock_map := [] } : DoorbellHubConfig).client_id = PyValue.none :=
  ⟨rfl, claim_C4 [] [] _ rfl rfl rfl⟩

/-! ### Lemmas about the notification loop -/

/-- The loop invokes each snapshot element exactly once, in order,
whatever the callbacks do (return, raise, or register). -/
theorem notifyLoop_trace (ls : List Listener) (st : HubState) :
    (notifyLoop st ls).2 = ls.map Listener.id := by
  induction ls generalizing st with
  | nil => rfl
  | cons l rest ih => simp [notifyLoop, ih]

/-- The registrations performed by the callbacks of one pass. -/
def passRegistrations (ls : List Listener) : List Listener :=
  ls.filterMap (fun l =>
    match l.act with
    | .register n => some ⟨n, .ret⟩
    | _ => Option.none)

/-- After the loop, the callback list is the starting list plus the
callbacks registered during the pass, appended in order. -/
theorem notifyLoop_state (ls : List Listener) (st : HubState) :
    (notifyLoop st ls).1.callbacks = st.callbacks ++ passRegistrations ls := by
  induction ls generalizing st with
  | nil => simp [notifyLoop, passRegistrations]
  | cons l rest ih =>
      obtain ⟨i, act⟩ := l
      cases act <;>
        simp [notifyLoop, runCb, registerBellCallback, passRegistrations, ih,
          List.filterMap_cons]

/-- `_notify_bell` traces exactly the ids registered when it starts. -/
theorem notifyBell_trace (st : HubState) :
    (notifyBell st).2 = st.callbacks.map Listener.id :=
  notifyLoop_trace st.callbacks st

/-- `_notify_bell` leaves the callback list equal to the starting list
plus the registrations made during the pass. -/
theorem notifyBell_state (st : HubState) :
    (notifyBell st).1.callbacks = st.callbacks ++ passRegistrations st.callbacks :=
  notifyLoop_state st.callbacks st

/-! ### Claim C2: fault-isolated fan-out in registration order -/

/-- C2: `_notify_bell` invokes every registered listener exactly once,
in registration order (the invocation trace equals the registered ids in
order), even when some listeners raise: a raising listener is caught by
the per-iteration `try/except Exception` and the loop continues, and
`notifyBell` is a total function — no exception escapes to the caller. -/
theorem claim_C2 (st : HubState) :
    (notifyBell st).2 = st.callbacks.map Listener.id :=
  notifyBell_trace st

/-! ### Claim C10: snapshot semantics of the notification pass -/

/-- C10: the listeners invoked by a `_notify_bell` pass are exactly those
registered when the call began (the loop iterates over
`list(self._bell_callbacks)`, a snapshot): a listener registered during
the pass under a fresh id is not invoked in that pass, but it lands in
the callback list, so the next pass does invoke it. -/
theorem claim_C10 (st : HubState) (n : Nat)
    (hfresh : n ∉ st.callbacks.map Listener.id) :
    n ∉ (notifyBell st).2 ∧
      ((∃ l ∈ st.callbacks, l.act = .register n) →
        n ∈ (notifyBell (notifyBell st).1).2) := by
  constructor
  · rw [notifyBell_trace]
    exact hfresh
  · rintro ⟨l, hl, hact⟩
    rw [notifyBell_trace, notifyBell_state]
    simp only [List.map_append, List.mem_append, List.mem_map]
    right
    refine ⟨⟨n, .ret⟩, ?_, rfl⟩
    unfold passRegistrations
    rw [List.mem_filterMap]
    exact ⟨l, hl, by rw [hact]⟩

/-- C10 witness: two listeners, the first of which registers a fresh
listener with id 9 during the pass. -/
theorem claim_C10_witness :
    (9 ∉ (HubState.mk [⟨1, .register 9⟩, ⟨2, .ret⟩]).callbacks.map Listener.id) ∧
    (9 ∉ (notifyBell (HubState.mk [⟨1, .register 9⟩, ⟨2, .ret⟩])).2 ∧
      ((∃ l ∈ (HubState.mk [⟨1, .register 9⟩, ⟨2, .ret⟩]).callbacks,
          l.act = .register 9) →
        9 ∈ (notifyBell
          (notifyBell (HubState.mk [⟨1, .register 9⟩, ⟨2, .ret⟩])).1).2)) :=
  ⟨by decide, claim_C10 _ 9 (by decide)⟩

/-! ### Claim C5: the MQTT message handler -/

/-- C5: the handler installed on the bell topic invokes `_notify_bell`
exactly once when the payload is the literal `"pressed"` and zero times
for any other payload (including `"released"`, `""` and `"Pressed"`,
which differ from `"pressed"` as strings); the handler is a total
function, so it never raises. -/
theorem claim_C5 (st : HubState) :
    (messageReceived st "pressed").2 = 1 ∧
      ∀ p, p ≠ "pressed" → (messageReceived st p).2 = 0 := by
  constructor
  · rfl
  · intro p hp
    simp [messageReceived, hp]

/-- C5 witness: the payload `"released"` triggers zero notifications. -/
theorem claim_C5_witness :
    ("released" : String) ≠ "pressed" ∧
      (messageReceived (HubState.mk []) "released").2 = 0 :=
  ⟨by decide, (claim_C5 (HubState.mk [])).2 "released" (by decide)⟩

/-! ### Claim C6: lock/unlock for a remote id -/

/-- C6 (counterexample): with lock map `{"lock.doorbell_front": ""}` the
key IS present, so the claim demands exactly one actuator call targeting
the mapped value; the code's `if not real: return` treats the empty
mapped string as falsy and issues zero calls. -/
theorem claim_C6_counterexample :
    asyncLockForRemote
        { base_topic := .str "doorbell", client_id := .none,
          doorbell_device_id := .none, gate_entity := .none,
          lock_map := [("lock.doorbell_front", "")] } "lock.doorbell_front" = [] ∧
    List.lookup "lock.doorbell_front"
        ({ base_topic := .str "doorbell", client_id := .none,
           doorbell_device_id := .none, gate_entity := .none,
           lock_map := [("lock.doorbell_front", "")] } :
          DoorbellHubConfig).lock_map = some "" := by
  exact ⟨rfl, rfl⟩

/-- C6 (amended): `lockForRemote`/`unlockForRemote` look the remote id up
in `config.lockMap` by exact string match; if the key is absent *or maps
to the empty string* they issue zero actuator calls, and otherwise they
issue exactly one lock (resp. unlock) call in domain `"lock"` targeting
the mapped real entity id, non-blocking. -/
theorem claim_C6 (config : DoorbellHubConfig) (rid : String) :
    (List.lookup rid config.lock_map = Option.none →
      asyncLockForRemote config rid = [] ∧ asyncUnlockForRemote config rid = []) ∧
    (List.lookup rid config.lock_map = some "" →
      asyncLockForRemote config rid = [] ∧ asyncUnlockForRemote config rid = []) ∧
    (∀ real, List.lookup rid config.lock_map = some real → real ≠ "" →
      asyncLockForRemote config rid =
        [{ domain := "lock", service := "lock",
           entity_id := .str real, blocking := false }] ∧
      asyncUnlockForRemote config rid =
        [{ domain := "lock", service := "unlock",
           entity_id := .str real, blocking := false }]) := by
  refine ⟨fun h => ?_, fun h => ?_, fun real h hne => ?_⟩
  · constructor <;> simp [asyncLockForRemote, asyncUnlockForRemote, h]
  · constructor <;> simp [asyncLockForRemote, asyncUnlockForRemote, h]
  · constructor <;> simp [asyncLockForRemote, asyncUnlockForRemote, h, hne]

/-- C6 witness: a mapped remote id issues exactly one lock call targeting
the real entity. -/
theorem claim_C6_witness :
    List.lookup "lock.doorbell_front"
        ({ base_topic := .str "doorbell", client_id := .none,
           doorbell_device_id := .none, gate_entity := .none,
           lock_map := [("lock.doorbell_front", "lock.real_front")] } :
          DoorbellHubConfig).lock_map = some "lock.real_front" ∧
    asyncLockForRemote
        { base_topic := .str "doorbell", client_id := .none,
          doorbell_device_id := .none, gate_entity := .none,
          lock_map := [("lock.doorbell_front", "lock.real_front")] }
        "lock.doorbell_front" =
      [{ domain := "lock", service := "lock",
         entity_id := .str "lock.real_front", blocking := false }] ∧
    asyncUnlockForRemote
        { base_topic := .str "doorbell", client_id := .none,
          doorbell_device_id := .none, gate_entity := .none,
          lock_map := [("lock.doorbell_front", "lock.real_front")] }
        "lock.doorbell_front" =
      [{ domain := "lock", service := "unlock",
         entity_id := .str "lock.real_front", blocking := false }] :=
  ⟨rfl, (claim_C6 _ "lock.doorbell_front").2.2 "lock.real_front" rfl
    (by decide)⟩

/-! ### Claim C7: gate operations -/

/-- C7 (counterexample): with `gate_entity` equal to the empty string the
gate entity is present (not `None`/absent), so the claim demands exactly
one call; the code's `if not self.config.gate_entity: return` treats it
as falsy and issues zero calls. -/
theorem claim_C7_counterexample :
    asyncOpenGate
        { base_topic := .str "doorbell", client_id := .none,
          doorbell_device_id := .none, gate_entity := .str "",
          lock_map := [] } = [] ∧
    asyncCloseGate
        { base_topic := .str "doorbell", client_id := .none,
          doorbell_device_id := .none, gate_entity := .str "",
          lock_map := [] } = [] ∧
    asyncStopGate
        { base_topic := .str "doorbell", client_id := .none,
          doorbell_device_id := .none, gate_entity := .str "",
          lock_map := [] } = [] ∧
    PyValue.str "" ≠ PyValue.none :=
  ⟨rfl, rfl, rfl, fun h => PyValue.noConfusion h⟩

/-- C7 (amended): `openGate`/`closeGate`/`stopGate` issue zero actuator
calls when `config.gateEntity` is absent or falsy (e.g. `None` or the
empty string) — a no-op, not an error — and otherwise each issues
exactly one non-blocking call in domain `"cover"` with the corresponding
action targeting the configured gate entity. -/
theorem claim_C7 (config : DoorbellHubConfig) :
    (config.gate_entity.truthy = false →
      asyncOpenGate config = [] ∧ asyncCloseGate config = [] ∧
        asyncStopGate config = []) ∧
    (config.gate_entity.truthy = true →
      asyncOpenGate config =
        [{ domain := "cover", service := "open_cover",
           entity_id := config.gate_entity, blocking := false }] ∧
      asyncCloseGate config =
        [{ domain := "cover", service := "close_cover",
           entity_id := config.gate_entity, blocking := false }] ∧
      asyncStopGate config =
        [{ domain := "cover", service := "stop_cover",
           entity_id := config.gate_entity, blocking := false }]) := by
  refine ⟨fun h => ?_, fun h => ?_⟩ <;>
    refine ⟨?_, ?_, ?_⟩ <;>
      simp [asyncOpenGate, asyncCloseGate, asyncStopGate, h]

/-- C7 witness: a configured gate entity yields exactly one call per
operation; `PyValue.none` yields zero. -/
theorem claim_C7_witness :
    ((PyValue.str "cover.gate").truthy = true ∧
      asyncOpenGate
          { base_topic := .str "doorbell", client_id := .none,
            doorbell_device_id := .none, gate_entity := .str "cover.gate",
            lock_map := [] } =
        [{ domain := "cover", service := "open_cover",
           entity_id := .str "cover.gate", blocking := false }] ∧
      asyncCloseGate
          { base_topic := .str "doorbell", client_id := .none,
            doorbell_device_id := .none, gate_entity := .str "cover.gate",
            lock_map := [] } =
        [{ domain := "cover", service := "close_cover",
           entity_id := .str "cover.gate", blocking := false }] ∧
      asyncStopGate
          { base_topic := .str "doorbell", client_id := .none,
            doorbell_device_id := .none, gate_entity := .str "cover.gate",
            lock_map := [] } =
        [{ domain := "cover", service := "stop_cover",
           entity_id := .str "cover.gate", blocking := false }]) ∧
    (PyValue.none.truthy = false ∧
      asyncOpenGate
          { base_topic := .str "doorbell", client_id := .none,
            doorbell_device_id := .none, gate_entity := .none,
            lock_map := [] } = [] ∧
      asyncCloseGate
          { base_topic := .str "doorbell", client_id := .none,
            doorbell_device_id := .none, gate_entity := .none,
            lock_map := [] } = [] ∧
      asyncStopGate
          { base_topic := .str "doorbell", client_id := .none,
            doorbell_device_id := .none, gate_entity := .none,
            lock_map := [] } = []) :=
  ⟨⟨by decide, (claim_C7 _).2 (by decide)⟩,
   ⟨by decide, (claim_C7 _).1 (by decide)⟩⟩

/-! ### Claim C8: ring publishes once to the command topic -/

/-- C8: for every configured base topic (a string), `async_ring`
performs exactly one publish, to `{baseTopic}/bell/cmd`, with literal
payload `"ring"`, QoS 1, and retain false. -/
theorem claim_C8 (config : DoorbellHubConfig) (t : String)
    (h : config.base_topic = .str t) :
    asyncRing config =
      [{ topic := t ++ "/bell/cmd", payload := "ring", qos := 1, retain := false }] := by
  simp [asyncRing, h, PyValue.pyStr]

/-- C8 witness: base topic `"doorbell"` publishes once to
`doorbell/bell/cmd`. -/
theorem claim_C8_witness :
    ({ base_topic := .str "doorbell", client_id := .none,
       doorbell_device_id := .none, gate_entity := .none,
       lock_map := [] } : DoorbellHubConfig).base_topic = .str "doorbell" ∧
    asyncRing
        { base_topic := .str "doorbell", client_id := .none,
          doorbell_device_id := .none, gate_entity := .none, lock_map := [] } =
      [{ topic := "doorbell" ++ "/bell/cmd", payload := "ring",
         qos := 1, retain := false }] :=
  ⟨rfl, claim_C8 _ "doorbell" rfl⟩

/-! ### Claim C9: deterministic, sorted lock discovery -/

/-- C9: `_get_remote_lock_entities` returns exactly the entity ids whose
registry entry matches the given device and has domain `"lock"`, sorted
lexicographically, and is deterministic (same registry state, same
result). -/
theorem claim_C9 (entities : List RegistryEntry) (device_id : String) :
    List.Sorted (· ≤ ·) (getRemoteLockEntities entities device_id) ∧
    (∀ s, s ∈ getRemoteLockEntities entities device_id ↔
      ∃ e, e ∈ entities ∧ e.device_id = some device_id ∧ e.domain = "lock" ∧
        e.entity_id = s) ∧
    getRemoteLockEntities entities device_id =
      getRemoteLockEntities entities device_id := by
  refine ⟨?_, fun s => ?_, rfl⟩
  · unfold getRemoteLockEntities
    exact List.sorted_mergeSort' _
  · unfold getRemoteLockEntities
    rw [(List.mergeSort_perm _ _).mem_iff]
    simp only [List.mem_map, List.mem_filter, Bool.and_eq_true, beq_iff_eq]
    constructor
    · rintro ⟨e, ⟨he, hd, hdom⟩, hid⟩
      exact ⟨e, he, hd, hdom, hid⟩
    · rintro ⟨e, he, hd, hdom, hid⟩
      exact ⟨e, ⟨he, hd, hdom⟩, hid⟩

end Doorbell
